import Mathlib

/-!
Verification development for `media_manager/torrent/utils.py`.

The Python module is shallowly embedded: each function of the module becomes a
Lean definition over explicit models of the filesystem state it touches, and
stdlib collaborators (`pathlib.Path.glob`, `Path.suffix`, `mimetypes.guess_type`,
`os.link` / `shutil.copy` semantics) are modelled explicitly where their
behaviour decides a property.
-/

set_option autoImplicit false

namespace MediaManager

/-! ### Model of `pathlib` path-string helpers

`Path.suffix` in CPython: take the final path component (`name`), find the last
dot; the suffix is nonempty iff that dot is neither the first nor past the last
character of the name.  We model paths as plain strings and compute on their
character lists so that everything kernel-evaluates. -/

/-- Split a character list at every occurrence of `sep` (model of `str.split`). -/
def splitChar (sep : Char) : List Char → List (List Char)
  | [] => [[]]
  | c :: rest =>
    let r := splitChar sep rest
    if c = sep then [] :: r
    else
      match r with
      | [] => [[c]]
      | h :: t => (c :: h) :: t

/-- Model of `PurePath.name`: the part of the path after the last `/`. -/
def pathName (p : String) : String :=
  match (splitChar '/' p.data).getLast? with
  | some cs => String.mk cs
  | none => p

/-- Model of `PurePath.suffix`: `name.rfind('.') = i` yields a suffix iff
`0 < i < len(name) - 1`; phrased over the dot-separated pieces of the name. -/
def pathSuffix (p : String) : String :=
  let parts := splitChar '.' (pathName p).data
  match parts with
  | [] => ""
  | [_] => ""
  | first :: rest =>
    let last := rest.getLast!
    if last = [] then ""
    else if rest.length = 1 ∧ first = [] then ""
    else String.mk ('.' :: last)

/-- Model of `str.startswith` on character lists. -/
def charsStartWith : List Char → List Char → Bool
  | [], _ => true
  | _ :: _, [] => false
  | a :: as, b :: bs => a = b && charsStartWith as bs

/-- Model of `str.startswith`. -/
def strStartsWith (s pre : String) : Bool :=
  charsStartWith pre.data s.data

/-! ### Model of `list_files_recursively`

The function runs `path.glob("**/*")` and keeps every entry that is neither a
directory (`is_dir`, which follows symlinks) nor a symlink. -/

/-- One filesystem entry as `glob` yields it.  `is_dir` models
`Path.is_dir()`, which follows symlinks, so a symlink pointing at a directory
has both flags set.  `path` is the path string of the entry. -/
structure FSEntry where
  path : String
  is_dir : Bool
  is_symlink : Bool
  deriving DecidableEq, Repr

/-- The state of a scan root: whether the root exists and is a directory,
whether it can be read, and the entries the recursive glob enumerates when it
can. -/
structure ScanRoot where
  rootIsDir : Bool
  rootReadable : Bool
  entries : List FSEntry
  deriving DecidableEq, Repr

/-- Model of `path.glob("**/*")` in CPython `pathlib`: the selector first
checks `is_dir(parent_path)` and returns an empty iterator when the root is
not an existing directory, and a `PermissionError` from `scandir` is caught
inside the selector; so a missing or unreadable root yields no entries and no
exception ever escapes the glob. -/
def globAll (r : ScanRoot) : List FSEntry :=
  if r.rootIsDir then (if r.rootReadable then r.entries else []) else []

/-- The filtering loop of `list_files_recursively`: skip an entry if it is a
directory, skip it if it is a symlink, otherwise keep it. -/
def filterValid : List FSEntry → List FSEntry
  | [] => []
  | x :: rest =>
    if x.is_dir then filterValid rest
    else if x.is_symlink then filterValid rest
    else x :: filterValid rest

/-- `list_files_recursively(path)`: glob everything under the root, then keep
the non-directory, non-symlink entries.  The Python body contains no exception
handling; since the glob model raises nothing, the function is total. -/
def list_files_recursively (r : ScanRoot) : List FSEntry :=
  filterValid (globAll r)

theorem filterValid_eq_filter (l : List FSEntry) :
    filterValid l = l.filter (fun e => !e.is_dir && !e.is_symlink) := by
  induction l with
  | nil => rfl
  | cons x rest ih =>
    cases hd : x.is_dir <;> cases hs : x.is_symlink <;>
      simp [filterValid, List.filter, hd, hs, ih]

/-! ### Model of `extract_archives`

For each file the function eagerly evaluates `file.stat().st_size` inside the
debug f-string (so a failing `stat` raises before anything else), sniffs the
type with `mimetypes.guess_type` (extension based; modelled by an explicit
`guess` function, since the platform type table is an input of the program),
and, when the sniffed type is in the literal `archive_types` set, attempts
`patoolib.extract_archive`, catching only `patoolib.util.PatoolError`. -/

/-- The literal `archive_types` set from the source, entry for entry.  Note the
second element: the source lacks a comma between
`"application/x-zip-compressed"` and `"application/x-compressed"`, so the set
holds their concatenation. -/
def archive_types : List String :=
  ["application/zip",
   "application/x-zip-compressedapplication/x-compressed",
   "application/vnd.rar",
   "application/x-7z-compressed",
   "application/x-freearc",
   "application/x-bzip",
   "application/x-bzip2",
   "application/gzip",
   "application/x-gzip",
   "application/x-tar",
  ]

/-- The archive test of `extract_archives`: `file_type[0] in archive_types`,
where `file_type[0]` is the sniffed MIME type (`none` when undetectable). -/
def is_archive_type : Option String → Bool
  | some t => archive_types.contains t
  | none => false

/-- What happens if extraction of one file is attempted: success, the
own error type of the collaborator (`PatoolError`), or any other exception. -/
inductive ExtractResult where
  | ok
  | patoolErr
  | otherErr
  deriving DecidableEq, Repr

/-- One file of an `extract_archives` batch: its path, whether its
`stat()` call raises (file vanished), and how extraction would end if tried. -/
structure BatchFile where
  path : String
  statErr : Bool
  res : ExtractResult
  deriving DecidableEq, Repr

/-- The visible outcome recorded for one processed file. -/
inductive ExOutcome where
  | extracted
  | extractFailedLogged
  | skipped
  deriving DecidableEq, Repr

/-- An exception that escapes `extract_archives` (nothing in its body catches
these). -/
inductive BatchErr where
  | statError (path : String)
  | extractError (path : String)
  deriving DecidableEq, Repr

/-- The per-file body of the `extract_archives` loop: stat for the debug log
(uncaught on failure), test the sniffed type against `archive_types`, and try
extraction with only `PatoolError` caught and logged. -/
def processOne (guess : String → Option String) (f : BatchFile) :
    Except BatchErr ExOutcome :=
  if f.statErr then .error (.statError f.path)
  else if is_archive_type (guess f.path) then
    match f.res with
    | .ok => .ok .extracted
    | .patoolErr => .ok .extractFailedLogged
    | .otherErr => .error (.extractError f.path)
  else .ok .skipped

/-- `extract_archives(files)`: process the batch in order; the trace lists the
outcome of every file reached, and the second component is the exception that
aborted the loop, if any (files after it are never reached). -/
def extract_archives (guess : String → Option String) :
    List BatchFile → List (String × ExOutcome) × Option BatchErr
  | [] => ([], none)
  | f :: rest =>
    match processOne guess f with
    | .error e => ([], some e)
    | .ok o =>
      let r := extract_archives guess rest
      ((f.path, o) :: r.1, r.2)

/-! ### Model of `import_file`

The destination path can hold nothing, a regular file, or a symlink whose
target may or may not exist.  `Path.exists()` follows symlinks, so a dangling
symlink reports as absent.  `Path.hardlink_to` (i.e. `os.link`) fails with
`FileExistsError` precisely when some entry — a dangling symlink included —
occupies the destination path; with the destination free it can still fail for
environmental reasons (cross-device, permissions), modelled by an oracle, as is
a failure of the `shutil.copy` fallback. -/

/-- What occupies a path: a regular file, or a symlink whose target exists or
not. -/
inductive EntryKind where
  | file
  | symlink (targetExists : Bool)
  deriving DecidableEq, Repr

/-- Model of `Path.exists()` (follows symlinks): true for a regular file and
for a symlink with a live target; false for nothing and for a dangling
symlink. -/
def pyExists : Option EntryKind → Bool
  | some .file => true
  | some (.symlink t) => t
  | none => false

/-- Environment oracle for one `import_file` run: an entry that external
interference recreates at the destination in the window between the delete and
the link (the race of the spec), whether a link attempt on a free destination
fails for an environmental reason, and whether the fallback copy fails. -/
structure ImportEnv where
  raceEntry : Option EntryKind
  linkFails : Bool
  copyFails : Bool
  deriving DecidableEq, Repr

/-- Observable result of `import_file`: the final destination entry, whether
the `FileExistsError` branch logged, whether the `OSError` branch logged,
whether the fallback copy ran to completion, and whether an uncaught exception
escaped (only a copy failure can). -/
structure ImportResult where
  finalDest : Option EntryKind
  loggedExists : Bool
  loggedOS : Bool
  copied : Bool
  raised : Bool
  deriving DecidableEq, Repr

/-- The entry occupying the destination at the moment of the link attempt:
the pre-delete removes the destination when `exists()` is true, and the race
window lets the environment recreate an entry only when the slot is free. -/
def destAtLink (dest : Option EntryKind) (env : ImportEnv) : Option EntryKind :=
  let afterDelete := if pyExists dest then none else dest
  if afterDelete.isSome then afterDelete else env.raceEntry

/-- `import_file(target_file, source_file)`: delete the destination if
`exists()`, attempt the hardlink, catch `FileExistsError` (log, stop), catch
any other `OSError` (log, copy; a failure of the copy itself is uncaught). -/
def import_file (dest : Option EntryKind) (env : ImportEnv) : ImportResult :=
  match destAtLink dest env with
  | some e => ⟨some e, true, false, false, false⟩
  | none =>
    if env.linkFails then
      if env.copyFails then ⟨none, false, true, false, true⟩
      else ⟨some .file, false, true, true, false⟩
    else ⟨some .file, false, false, false, false⟩

/-! ### Model of the classifier loop and `import_torrent`

`import_torrent` scans the torrent directory, runs one `extract_archives` pass
over the scan result, re-scans, and then classifies the re-scan: a file whose
sniffed type starts with `"video"` goes to the video list, else one whose type
starts with `"text"` and whose `Path.suffix` equals `".srt"` goes to the
subtitle list, and a file with no detectable type is skipped.  The classifier
loop (lines 85–99 of the source) is factored out as `classify_files`; the type
sniffing is again the explicit `guess` input. -/

/-- The classifier loop of `import_torrent`, file by file in input order. -/
def classify_files (guess : String → Option String) :
    List String → List String × List String
  | [] => ([], [])
  | f :: rest =>
    let r := classify_files guess rest
    match guess f with
    | none => r
    | some t =>
      if strStartsWith t "video" then (f :: r.1, r.2)
      else if strStartsWith t "text" && pathSuffix f == ".srt" then
        (r.1, f :: r.2)
      else r

/-- The condition under which the loop adds a file to the video list. -/
def isVideoFile (guess : String → Option String) (f : String) : Bool :=
  match guess f with
  | some t => strStartsWith t "video"
  | none => false

/-- The condition under which the loop adds a file to the subtitle list: the
type does not take the video branch, starts with `"text"`, and the suffix is
exactly `".srt"`. -/
def isSubtitleFile (guess : String → Option String) (f : String) : Bool :=
  match guess f with
  | some t =>
      !strStartsWith t "video" &&
        (strStartsWith t "text" && pathSuffix f == ".srt")
  | none => false

theorem classify_files_eq_filter (guess : String → Option String)
    (files : List String) :
    classify_files guess files =
      (files.filter (isVideoFile guess), files.filter (isSubtitleFile guess)) := by
  induction files with
  | nil => rfl
  | cons f rest ih =>
    simp only [classify_files, ih, List.filter, isVideoFile, isSubtitleFile]
    cases hg : guess f with
    | none => simp
    | some t =>
      cases hv : strStartsWith t "video" with
      | true => simp [hv]
      | false =>
        cases hs : strStartsWith t "text" && pathSuffix f == ".srt" <;>
          simp [hv, hs]

/-- The scan results, as the list of path strings `import_torrent` works on. -/
def scanPaths (r : ScanRoot) : List String :=
  (list_files_recursively r).map FSEntry.path

/-- `import_torrent(torrent)` over an abstract world `σ`: `fsOf` is the state
of the torrent directory (resolved once from the torrent via
`get_torrent_filepath`, which never changes during the run), and `extractFx`
is the filesystem effect of the single `extract_archives` pass on the files it
is handed.  Scan, extract once, re-scan, classify the re-scan, and return the
triple. -/
def import_torrent {σ : Type} (fsOf : σ → ScanRoot)
    (extractFx : σ → List String → σ) (guess : String → Option String)
    (s0 : σ) : List String × List String × List String :=
  let all_files := scanPaths (fsOf s0)
  let s1 := extractFx s0 all_files
  let all_files2 := scanPaths (fsOf s1)
  let vs := classify_files guess all_files2
  (vs.1, vs.2, all_files2)

/-! ### Error channel of the scan, finite enumeration, and shared lemmas -/

/-- The error conditions the spec associates with a scan of a bad root. -/
inductive ScanErr where
  | notFound
  | notAccessible
  deriving DecidableEq, Repr

/-- The scan as its caller observes it: the body of `list_files_recursively`
contains no exception handling, so an error raised by the glob would propagate
here; since the glob model raises nothing (see `globAll`), the run always
returns `Except.ok`. -/
def list_files_recursively_run (r : ScanRoot) :
    Except ScanErr (List FSEntry) :=
  Except.ok (list_files_recursively r)

instance : Fintype EntryKind where
  elems := ⟨{EntryKind.file, EntryKind.symlink true, EntryKind.symlink false}, by decide⟩
  complete := by
    intro x
    rcases x with _ | t
    · decide
    · cases t <;> decide

theorem extract_archives_trace_paths (guess : String → Option String)
    (l : List BatchFile) (hnone : (extract_archives guess l).2 = none) :
    (extract_archives guess l).1.map Prod.fst = l.map BatchFile.path := by
  induction l with
  | nil => rfl
  | cons a rest ih =>
    cases ha : processOne guess a with
    | error e => simp [extract_archives, ha] at hnone
    | ok o =>
      simp only [extract_archives, ha] at hnone ⊢
      simp [ih hnone]

theorem extract_archives_mem_trace (guess : String → Option String)
    (l : List BatchFile) (hnone : (extract_archives guess l).2 = none)
    (g : BatchFile) (hg : g ∈ l) (o : ExOutcome)
    (ho : processOne guess g = .ok o) :
    (g.path, o) ∈ (extract_archives guess l).1 := by
  induction l with
  | nil => cases hg
  | cons a rest ih =>
    cases ha : processOne guess a with
    | error e => simp [extract_archives, ha] at hnone
    | ok oa =>
      simp only [extract_archives, ha] at hnone ⊢
      rcases List.mem_cons.mp hg with hga | hgr
      · subst hga
        rw [ha] at ho
        cases ho
        exact List.mem_cons_self _ _
      · exact List.mem_cons_of_mem _ (ih hnone hgr)

theorem not_video_and_subtitle (guess : String → Option String) (f : String) :
    ¬(isVideoFile guess f = true ∧ isSubtitleFile guess f = true) := by
  unfold isVideoFile isSubtitleFile
  cases guess f with
  | none => simp
  | some t => cases hv : strStartsWith t "video" <;> simp [hv]

/-! ### Concrete fixtures used by witnesses and counterexamples -/

/-- An extension table (one possible platform `mimetypes` state) mapping
`.mp4` to a video type, `.rar` to the rar archive type and `.srt` to a text
type. -/
def demoGuess : String → Option String := fun f =>
  if pathSuffix f == ".mp4" then some "video/mp4"
  else if pathSuffix f == ".rar" then some "application/vnd.rar"
  else if pathSuffix f == ".srt" then some "text/plain"
  else none

/-- An extension table as found on platforms whose registry maps `.zip` to
`application/x-zip-compressed`. -/
def zipGuess : String → Option String := fun f =>
  if pathSuffix f == ".zip" then some "application/x-zip-compressed" else none

/-- A two-state torrent-directory world: before extraction the directory holds
one archive; the extraction pass adds the video it contains. -/
def demoFsOf : Bool → ScanRoot
  | false => ⟨true, true, [⟨"t/m.rar", false, false⟩]⟩
  | true => ⟨true, true, [⟨"t/m.rar", false, false⟩, ⟨"t/m.mp4", false, false⟩]⟩

/-- The extraction effect in the demo world: it flips the state. -/
def demoExtractFx : Bool → List String → Bool := fun _ _ => true

/-! ### Claim theorems -/

/-- Claim C1, as stated, is false: for a root that does not exist (first
conjunct) or is not readable (second conjunct), the scan does not fail with a
propagating error — it returns `Except.ok []`, i.e. a (possibly empty) list of
files, even when entries are on record under the root. -/
theorem scan_missing_root_counterexample :
    list_files_recursively_run ⟨false, false, [⟨"gone/movie.mkv", false, false⟩]⟩
        = Except.ok []
    ∧ list_files_recursively_run ⟨true, false, [⟨"locked/movie.mkv", false, false⟩]⟩
        = Except.ok [] := by
  exact ⟨rfl, rfl⟩

/-- Claim C1 amended: for every root that does not exist or is not readable,
the scan returns `Except.ok []` — the glob enumerates nothing and raises
nothing, so no error condition reaches the caller. -/
theorem scan_missing_root_amended (r : ScanRoot)
    (h : r.rootIsDir = false ∨ r.rootReadable = false) :
    list_files_recursively_run r = Except.ok [] := by
  obtain ⟨d, rd, es⟩ := r
  rcases h with h | h
  · subst h
    simp [list_files_recursively_run, list_files_recursively, globAll, filterValid]
  · subst h
    cases d <;>
      simp [list_files_recursively_run, list_files_recursively, globAll, filterValid]

/-- Witness for `scan_missing_root_amended` at a concrete unreadable root. -/
theorem scan_missing_root_amended_witness :
    (true = false ∨ false = false)
    ∧ list_files_recursively_run ⟨true, false, [⟨"locked/a.mkv", false, false⟩]⟩
        = Except.ok [] :=
  ⟨Or.inr rfl,
    scan_missing_root_amended ⟨true, false, [⟨"locked/a.mkv", false, false⟩]⟩
      (Or.inr rfl)⟩

/-- Claim C2: the code is buggy where the claim (and the spec) list the
compressed-zip variants as members of the archive set.  A missing comma in the
source fused `"application/x-zip-compressed"` and `"application/x-compressed"`
into the single impossible member
`"application/x-zip-compressedapplication/x-compressed"`, so a file sniffed as
either variant is skipped, not extracted (first conjunct evaluates the batch
function on such a file); the remaining conjuncts pin the set membership facts,
including that ordinary zip files and undetectable files behave as claimed. -/
theorem archive_zip_variant_code_bug :
    extract_archives zipGuess [⟨"t/a.zip", false, ExtractResult.ok⟩]
        = ([("t/a.zip", ExOutcome.skipped)], none)
    ∧ is_archive_type (some "application/x-zip-compressed") = false
    ∧ is_archive_type (some "application/x-compressed") = false
    ∧ archive_types.contains "application/x-zip-compressedapplication/x-compressed" = true
    ∧ is_archive_type (some "application/zip") = true
    ∧ is_archive_type (some "application/vnd.rar") = true
    ∧ is_archive_type none = false
    ∧ extract_archives zipGuess [⟨"t/x.bin", false, ExtractResult.ok⟩]
        = ([("t/x.bin", ExOutcome.skipped)], none) := by
  refine ⟨by decide, by decide, by decide, by decide, by decide, by decide, rfl, by decide⟩

/-- Claim C7: the scan keeps exactly the entries of the glob enumeration that
are neither directories nor symlinks — a directory is dropped, a symlink is
dropped (a symlink to a directory has `is_dir` true and is dropped too), and
everything else is kept — and the output is a sublist of the enumeration, so
its order is exactly the enumeration order. -/
theorem scan_filters_dirs_and_symlinks (r : ScanRoot) (e : FSEntry) :
    (e ∈ list_files_recursively r ↔
      e ∈ globAll r ∧ e.is_dir = false ∧ e.is_symlink = false)
    ∧ (list_files_recursively r).Sublist (globAll r) := by
  constructor
  · rw [list_files_recursively, filterValid_eq_filter, List.mem_filter]
    simp [Bool.and_eq_true, Bool.not_eq_true']
  · rw [list_files_recursively, filterValid_eq_filter]
    exact List.filter_sublist _

/-- Claim C3: `import_file` deletes an existing destination first (a
destination reported existing never survives to the link attempt: the slot at
link time holds only what the race recreated); a `FileExistsError` from the
link is logged and nothing further happens for the file (no copy, nothing
raised, the destination left as it stood at link time); any other link
`OSError` is logged and a full copy is performed instead; and a failure of
that fallback copy propagates uncaught. -/
theorem import_file_error_handling (d re : Option EntryKind) (lf cf : Bool) :
    (pyExists d = true → destAtLink d ⟨re, lf, cf⟩ = re)
    ∧ ((import_file d ⟨re, lf, cf⟩).loggedExists = true ↔
        (destAtLink d ⟨re, lf, cf⟩).isSome = true)
    ∧ ((import_file d ⟨re, lf, cf⟩).loggedExists = true →
        (import_file d ⟨re, lf, cf⟩).copied = false
        ∧ (import_file d ⟨re, lf, cf⟩).raised = false
        ∧ (import_file d ⟨re, lf, cf⟩).finalDest = destAtLink d ⟨re, lf, cf⟩)
    ∧ (destAtLink d ⟨re, lf, cf⟩ = none → lf = true → cf = false →
        (import_file d ⟨re, lf, cf⟩).loggedOS = true
        ∧ (import_file d ⟨re, lf, cf⟩).copied = true
        ∧ (import_file d ⟨re, lf, cf⟩).finalDest = some EntryKind.file
        ∧ (import_file d ⟨re, lf, cf⟩).raised = false)
    ∧ (destAtLink d ⟨re, lf, cf⟩ = none → lf = true → cf = true →
        (import_file d ⟨re, lf, cf⟩).loggedOS = true
        ∧ (import_file d ⟨re, lf, cf⟩).copied = false
        ∧ (import_file d ⟨re, lf, cf⟩).raised = true) := by
  refine ⟨?_, ?_, ?_, ?_, ?_⟩ <;> revert d re lf cf <;> decide

/-- Witness for `import_file_error_handling`: each implication fired at a
concrete input — an existing regular file gets deleted before the link; an
occupied slot gives the logged `FileExistsError` with no copy; a link failure
on a free slot copies; and a failing copy raises. -/
theorem import_file_error_handling_witness :
    destAtLink (some EntryKind.file) ⟨none, false, false⟩ = none
    ∧ (import_file (some (EntryKind.symlink true))
          ⟨some EntryKind.file, false, false⟩).copied = false
    ∧ (import_file none ⟨none, true, false⟩).copied = true
    ∧ (import_file none ⟨none, true, true⟩).raised = true :=
  ⟨(import_file_error_handling (some EntryKind.file) none false false).1 (by decide),
    ((import_file_error_handling (some (EntryKind.symlink true))
        (some EntryKind.file) false false).2.2.1 (by decide)).1,
    ((import_file_error_handling none none true false).2.2.2.1 rfl rfl rfl).2.1,
    ((import_file_error_handling none none true true).2.2.2.2 rfl rfl rfl).2.2⟩

/-- Claim C10: with a dangling symlink at the destination, `exists()` (which
follows symlinks) reports absent, so the link is not removed; the hardlink
attempt then hits `FileExistsError`, which is only logged — no copy fallback
runs, nothing propagates, and the dangling symlink is still at the
destination. -/
theorem import_file_dangling_symlink_dest (re : Option EntryKind) (lf cf : Bool) :
    pyExists (some (EntryKind.symlink false)) = false
    ∧ import_file (some (EntryKind.symlink false)) ⟨re, lf, cf⟩ =
        ⟨some (EntryKind.symlink false), true, false, false, false⟩ := by
  revert re lf cf
  decide

/-- Claim C4: `import_torrent` is exactly the ordered pipeline scan → one
expansion pass over the first scan → re-scan → classify the re-scan → return
(video set, subtitle set, re-scan).  The first conjunct shows, for every
world, that the expansion is applied once, to file list A, and that the
returned triple is built from the post-expansion re-scan B; the remaining
conjuncts run a concrete world in which extraction reveals a new file, so the
returned third component is B and differs from A. -/
theorem import_torrent_sequence :
    (∀ (σ : Type) (fsOf : σ → ScanRoot) (extractFx : σ → List String → σ)
        (guess : String → Option String) (s0 : σ),
      import_torrent fsOf extractFx guess s0 =
        ((classify_files guess
            (scanPaths (fsOf (extractFx s0 (scanPaths (fsOf s0)))))).1,
          (classify_files guess
            (scanPaths (fsOf (extractFx s0 (scanPaths (fsOf s0)))))).2,
          scanPaths (fsOf (extractFx s0 (scanPaths (fsOf s0))))))
    ∧ import_torrent demoFsOf demoExtractFx demoGuess false
        = (["t/m.mp4"], [], ["t/m.rar", "t/m.mp4"])
    ∧ scanPaths (demoFsOf false) = ["t/m.rar"] := by
  refine ⟨fun σ fsOf extractFx guess s0 => rfl, by decide, by decide⟩

/-- Claim C5: the classifier is, file by file in input order, the stated rule:
a file with undetectable type lands in neither list; a detected type starting
with `"video"` puts the file in the video list; otherwise a type starting with
`"text"` together with suffix exactly `".srt"` puts it in the subtitle list;
everything else is skipped — both outputs in input order (they are filters of
the input).  The extra conjuncts pin the case sensitivity of the `".srt"` test
and the exclusion of undetectable files. -/
theorem classify_files_rules (guess : String → Option String)
    (files : List String) :
    classify_files guess files =
      (files.filter (isVideoFile guess), files.filter (isSubtitleFile guess))
    ∧ isSubtitleFile (fun _ => some "text/plain") "t/a.srt" = true
    ∧ isSubtitleFile (fun _ => some "text/plain") "t/a.SRT" = false
    ∧ isVideoFile (fun _ => none) "t/a.mp4" = false :=
  ⟨classify_files_eq_filter guess files, by decide, by decide, rfl⟩

/-- Claim C6: a `PatoolError` during extraction of one archive of the batch is
logged and the rest of the batch is processed exactly as it would be on its
own (so the failed file gets a single logged attempt and no retry); when
nothing aborts the remainder, every later file is examined (second conjunct)
and every later recognized archive whose extraction succeeds is extracted
(third conjunct). -/
theorem extract_archives_patool_failure_tolerant (guess : String → Option String)
    (f : BatchFile) (rest : List BatchFile)
    (hstat : f.statErr = false)
    (harch : is_archive_type (guess f.path) = true)
    (hres : f.res = ExtractResult.patoolErr) :
    extract_archives guess (f :: rest) =
      ((f.path, ExOutcome.extractFailedLogged) :: (extract_archives guess rest).1,
        (extract_archives guess rest).2)
    ∧ ((extract_archives guess rest).2 = none →
        (extract_archives guess rest).1.map Prod.fst = rest.map BatchFile.path)
    ∧ (∀ g ∈ rest, (extract_archives guess rest).2 = none →
        g.statErr = false → is_archive_type (guess g.path) = true →
        g.res = ExtractResult.ok →
        (g.path, ExOutcome.extracted) ∈ (extract_archives guess rest).1) := by
  refine ⟨?_, extract_archives_trace_paths guess rest, ?_⟩
  · have hp : processOne guess f = Except.ok ExOutcome.extractFailedLogged := by
      simp [processOne, hstat, harch, hres]
    simp [extract_archives, hp]
  · intro g hg hnone hgs hga hgr
    apply extract_archives_mem_trace guess rest hnone g hg
    simp [processOne, hgs, hga, hgr]

/-- Witness for `extract_archives_patool_failure_tolerant`: a concrete batch
where the first archive fails with `PatoolError` and the second is still
extracted. -/
theorem extract_archives_patool_failure_tolerant_witness :
    is_archive_type (demoGuess "t/bad.rar") = true
    ∧ extract_archives demoGuess
        [⟨"t/bad.rar", false, ExtractResult.patoolErr⟩,
          ⟨"t/good.rar", false, ExtractResult.ok⟩]
      = ([("t/bad.rar", ExOutcome.extractFailedLogged),
          ("t/good.rar", ExOutcome.extracted)], none) :=
  ⟨by decide,
    ((extract_archives_patool_failure_tolerant demoGuess
        ⟨"t/bad.rar", false, ExtractResult.patoolErr⟩
        [⟨"t/good.rar", false, ExtractResult.ok⟩]
        rfl (by decide) rfl).1).trans (by decide)⟩

/-- Claim C8, as stated, is false: the classifier appends once per input
occurrence, so an input containing the same path twice yields a video list
with a duplicate. -/
theorem classify_files_duplicates_counterexample :
    (classify_files demoGuess ["t/v.mp4", "t/v.mp4"]).1 = ["t/v.mp4", "t/v.mp4"]
    ∧ ¬ (classify_files demoGuess ["t/v.mp4", "t/v.mp4"]).1.Nodup :=
  ⟨by decide, by decide⟩

/-- Claim C8 amended: for input sequences without duplicate entries, the video
and subtitle outputs are duplicate-free, each is a subset of the input, and
they share no element. -/
theorem classify_files_nodup_disjoint (guess : String → Option String)
    (files : List String) (h : files.Nodup) :
    (classify_files guess files).1.Nodup
    ∧ (classify_files guess files).2.Nodup
    ∧ (∀ x ∈ (classify_files guess files).1, x ∈ files)
    ∧ (∀ x ∈ (classify_files guess files).2, x ∈ files)
    ∧ (∀ x ∈ (classify_files guess files).1,
        x ∉ (classify_files guess files).2) := by
  rw [classify_files_eq_filter]
  refine ⟨h.filter _, h.filter _, fun x hx => (List.mem_filter.mp hx).1,
    fun x hx => (List.mem_filter.mp hx).1, fun x hx hx2 => ?_⟩
  exact not_video_and_subtitle guess x
    ⟨(List.mem_filter.mp hx).2, (List.mem_filter.mp hx2).2⟩

/-- Witness for `classify_files_nodup_disjoint` at a concrete duplicate-free
input. -/
theorem classify_files_nodup_disjoint_witness :
    (["t/v.mp4", "t/s.srt"] : List String).Nodup
    ∧ (classify_files demoGuess ["t/v.mp4", "t/s.srt"]).1.Nodup :=
  ⟨by decide,
    (classify_files_nodup_disjoint demoGuess ["t/v.mp4", "t/s.srt"] (by decide)).1⟩

/-- Claim C9: only `PatoolError` is caught per file — any other exception
(stat of a vanished file, a non-Patool extraction error) aborts the batch with
nothing of the remainder processed (first conjunct), and an exception escapes
the per-file processing exactly when the stat fails or a recognized archive
hits a non-Patool extraction error (second conjunct). -/
theorem extract_archives_uncaught_aborts (guess : String → Option String)
    (f : BatchFile) (rest : List BatchFile) :
    (∀ e, processOne guess f = Except.error e →
      extract_archives guess (f :: rest) = ([], some e))
    ∧ ((∃ e, processOne guess f = Except.error e) ↔
        f.statErr = true
        ∨ (f.statErr = false ∧ is_archive_type (guess f.path) = true
            ∧ f.res = ExtractResult.otherErr)) := by
  constructor
  · intro e he
    simp [extract_archives, he]
  · cases hs : f.statErr <;> cases ha : is_archive_type (guess f.path) <;>
      cases hr : f.res <;> simp [processOne, hs, ha, hr]

/-- Witness for `extract_archives_uncaught_aborts`: a vanished file aborts the
batch before its second file, and so does a non-Patool extraction failure. -/
theorem extract_archives_uncaught_aborts_witness :
    processOne demoGuess ⟨"t/gone.rar", true, ExtractResult.ok⟩
        = Except.error (BatchErr.statError "t/gone.rar")
    ∧ extract_archives demoGuess
        [⟨"t/gone.rar", true, ExtractResult.ok⟩,
          ⟨"t/late.rar", false, ExtractResult.ok⟩]
        = ([], some (BatchErr.statError "t/gone.rar"))
    ∧ extract_archives demoGuess
        [⟨"t/bomb.rar", false, ExtractResult.otherErr⟩,
          ⟨"t/late.rar", false, ExtractResult.ok⟩]
        = ([], some (BatchErr.extractError "t/bomb.rar")) :=
  ⟨rfl,
    (extract_archives_uncaught_aborts demoGuess
      ⟨"t/gone.rar", true, ExtractResult.ok⟩
      [⟨"t/late.rar", false, ExtractResult.ok⟩]).1 _ rfl,
    (extract_archives_uncaught_aborts demoGuess
      ⟨"t/bomb.rar", false, ExtractResult.otherErr⟩
      [⟨"t/late.rar", false, ExtractResult.ok⟩]).1 _ rfl⟩

end MediaManager
